import Mathlib

/-
  Verification of src/braincog/model_zoo/sew_resnet.py.

  Shallow embedding conventions:
  * a torch tensor is a flat list of rationals (`Tensor`); two tensors have
    the same shape iff the lists have the same length;
  * elementwise torch operations become `List.zipWith`; the scalar broadcast
    in `x * (1. - y)` becomes an elementwise map inside the zip;
  * Python exceptions become the `Except PyErr` monad; an uncaught `raise`
    is an `.error` value that propagates through `do`-blocks exactly as an
    exception propagates to the caller.
-/

namespace SewResnet

/-- The Python exception classes raised (or raisable) by the code under
analysis. -/
inductive PyErr where
  | notImplementedError
  | valueError
  | typeError
  | attributeError
  deriving DecidableEq, Repr

/-- A torch tensor, flattened to its data; equal shape = equal length. -/
abbrev Tensor := List ℚ

/-- Elementwise `x + y` of two same-shaped tensors (torch broadcast-free `+`). -/
def addT (x y : Tensor) : Tensor := List.zipWith (fun a b => a + b) x y

/-- Elementwise `x * y`. -/
def mulT (x y : Tensor) : Tensor := List.zipWith (fun a b => a * b) x y

/-- Elementwise `x * (1. - y)`: the scalar `1.` broadcasts over `y`. -/
def iandT (x y : Tensor) : Tensor := List.zipWith (fun a b => a * (1 - b)) x y

/-- `sew_function` (sew_resnet.py lines 31-39): dispatch on the `cnf`
string; an unrecognized tag raises `NotImplementedError`. -/
def sew_function (x y : Tensor) (cnf : String) : Except PyErr Tensor :=
  if cnf = "ADD" then .ok (addT x y)
  else if cnf = "AND" then .ok (mulT x y)
  else if cnf = "IAND" then .ok (iandT x y)
  else .error .notImplementedError

/-! Spec-side definitions, written from the spec's words "elementwise sum",
"elementwise product", "a * (1 - b)": index-by-index over the common shape,
independent of the zip used by the code translation. -/

/-- Elementwise combination of two tensors read off index by index. -/
def specElemwise (f : ℚ → ℚ → ℚ) (a b : Tensor) : Tensor :=
  (List.range a.length).map (fun i => f (a.getD i 0) (b.getD i 0))

lemma getD_cons_succ (x : ℚ) (l : List ℚ) (i : ℕ) :
    (x :: l).getD (i + 1) 0 = l.getD i 0 := rfl

lemma specElemwise_cons (f : ℚ → ℚ → ℚ) (x y : ℚ) (xs ys : List ℚ) :
    specElemwise f (x :: xs) (y :: ys) = f x y :: specElemwise f xs ys := by
  simp [specElemwise, List.range_succ_eq_map, List.map_map, Function.comp,
    getD_cons_succ]

lemma zipWith_eq_specElemwise (f : ℚ → ℚ → ℚ) :
    ∀ (a b : Tensor), a.length = b.length →
      List.zipWith f a b = specElemwise f a b := by
  intro a
  induction a with
  | nil => intro b _; cases b <;> simp [specElemwise]
  | cons x xs ih =>
      intro b h
      cases b with
      | nil => simp at h
      | cons y ys =>
          simp only [List.length_cons, Nat.succ.injEq] at h
          rw [List.zipWith_cons_cons, specElemwise_cons, ih ys h]

/-! ## Residual blocks (sew_resnet.py lines 54-154)

A block's convolution / batch-norm / spiking-node sub-modules are opaque
tensor transformers here: within a single forward call each behaves as a
function of its input, which is all the merge-order claims depend on. -/

/-- The sub-modules `BasicBlock.__init__` stores (lines 67-77): two
conv-bn-node stages, an optional downsample path with its own node. -/
structure BasicBlockM where
  conv1 : Tensor → Tensor
  bn1 : Tensor → Tensor
  node1 : Tensor → Tensor
  conv2 : Tensor → Tensor
  bn2 : Tensor → Tensor
  node2 : Tensor → Tensor
  downsample : Option (Tensor → Tensor)
  downsample_sn : Tensor → Tensor
  cnf : String

/-- `BasicBlock.forward` (lines 79-95), line by line: main path through the
two stages, identity replaced by `downsample_sn(downsample(x))` when a
downsample is present, then `sew_function(identity, out, self.cnf)`. -/
def BasicBlockM.forward (B : BasicBlockM) (x : Tensor) : Except PyErr Tensor :=
  let out := B.conv1 x
  let out := B.bn1 out
  let out := B.node1 out
  let out := B.conv2 out
  let out := B.bn2 out
  let out := B.node2 out
  let identity :=
    match B.downsample with
    | none => x
    | some d => B.downsample_sn (d x)
  sew_function identity out B.cnf

/-- The main (residual) path of a `BasicBlock`, read off lines 82-88. -/
def BasicBlockM.mainPath (B : BasicBlockM) (x : Tensor) : Tensor :=
  B.node2 (B.bn2 (B.conv2 (B.node1 (B.bn1 (B.conv1 x)))))

/-- The identity path of a `BasicBlock`, read off lines 80 and 90-91. -/
def BasicBlockM.identityPath (B : BasicBlockM) (x : Tensor) : Tensor :=
  match B.downsample with
  | none => x
  | some d => B.downsample_sn (d x)

/-- The sub-modules `Bottleneck.__init__` stores (lines 116-129): three
conv-bn-node stages plus the optional downsample path. -/
structure BottleneckM where
  conv1 : Tensor → Tensor
  bn1 : Tensor → Tensor
  node1 : Tensor → Tensor
  conv2 : Tensor → Tensor
  bn2 : Tensor → Tensor
  node2 : Tensor → Tensor
  conv3 : Tensor → Tensor
  bn3 : Tensor → Tensor
  node3 : Tensor → Tensor
  downsample : Option (Tensor → Tensor)
  downsample_sn : Tensor → Tensor
  cnf : String

/-- `Bottleneck.forward` (lines 131-151): three stages, then
`sew_function(out, identity, self.cnf)` — note the swapped argument order
relative to `BasicBlock.forward`. -/
def BottleneckM.forward (B : BottleneckM) (x : Tensor) : Except PyErr Tensor :=
  let out := B.conv1 x
  let out := B.bn1 out
  let out := B.node1 out
  let out := B.conv2 out
  let out := B.bn2 out
  let out := B.node2 out
  let out := B.conv3 out
  let out := B.bn3 out
  let out := B.node3 out
  let identity :=
    match B.downsample with
    | none => x
    | some d => B.downsample_sn (d x)
  sew_function out identity B.cnf

/-- The main (residual) path of a `Bottleneck`, read off lines 134-144. -/
def BottleneckM.mainPath (B : BottleneckM) (x : Tensor) : Tensor :=
  B.node3 (B.bn3 (B.conv3 (B.node2 (B.bn2 (B.conv2 (B.node1 (B.bn1 (B.conv1 x))))))))

/-- The identity path of a `Bottleneck`, read off lines 132 and 146-147. -/
def BottleneckM.identityPath (B : BottleneckM) (x : Tensor) : Tensor :=
  match B.downsample with
  | none => x
  | some d => B.downsample_sn (d x)

/-! ## Multi-timestep execution (`_forward_impl`, lines 252-306 and the
identical bodies at lines 425-477 and 596-646)

The network body is a pipeline of layers.  Stateless modules (conv, norm,
pooling, flatten, fc) are `pointwise` tensor functions.  A spiking node is
a stateful unit: `dyn st x = (st', y)` advances its internal state one
timestep; `start` is the state installed by `reset()`.

Modelled from the spec: the spiking-node dynamics, the `reset()` hook and
the encoder live outside this file's source (braincog.base.node and
base_module).  Per the spec, a node consumes a tensor and an implicit
internal state, advances one timestep and is resettable; in flattened
(layer_by_layer) execution a node receives the time-flattened tensor and
applies its per-timestep dynamics sequentially across the timestep slices;
the direct encoder repeats the raw input once per timestep.  A
time-flattened tensor of shape (t*b, ...) is represented by its list of t
per-timestep slices, so `rearrange '(t b) c -> t b c'` is the identity of
the representation. -/

/-- One layer of the network body: a stateless module or a spiking node. -/
inductive SLayer where
  | pointwise (f : Tensor → Tensor)
  | node (dyn : Tensor → Tensor → Tensor × Tensor) (start : Tensor) (st : Tensor)

/-- A network body: the stem, blocks and head flattened into a pipeline. -/
abbrev Net := List SLayer

/-- Apply one layer to one timestep slice, updating node state. -/
def SLayer.stepL : SLayer → Tensor → SLayer × Tensor
  | .pointwise f, x => (.pointwise f, f x)
  | .node d s st, x =>
      let r := d st x
      (.node d s r.1, r.2)

/-- `reset()` on one layer: node state back to its initial value. -/
def SLayer.resetL : SLayer → SLayer
  | .pointwise f => .pointwise f
  | .node d s _ => .node d s s

/-- Run the whole body on one timestep slice (the loop body of lines
286-304), threading every node's state. -/
def stepBody : Net → Tensor → Net × Tensor
  | [], x => ([], x)
  | l :: ls, x =>
      let r := l.stepL x
      let r' := stepBody ls r.2
      (r.1 :: r'.1, r'.2)

/-- The looped pass (lines 285-304): `for t in range(self.step)` over the
per-timestep input slices, sharing the same module instances — and hence
the same evolving node states — across iterations. -/
def loopedRun : Net → List Tensor → Net × List Tensor
  | net, [] => (net, [])
  | net, x :: xs =>
      let r := stepBody net x
      let r' := loopedRun r.1 xs
      (r'.1, r.2 :: r'.2)

/-- A node consuming a time-flattened tensor: its per-timestep dynamics run
sequentially across the timestep slices (modelled from the spec's
multi-step node contract). -/
def nodeScan (d : Tensor → Tensor → Tensor × Tensor) (s : Tensor) :
    Tensor → List Tensor → SLayer × List Tensor
  | st, [] => (.node d s st, [])
  | st, x :: xs =>
      let r := d st x
      let r' := nodeScan d s r.1 xs
      (r'.1, r.2 :: r'.2)

/-- Apply one layer to a whole time-flattened tensor: a stateless module
treats t*b as the batch dimension (acting on each slice independently), a
node scans across the timesteps. -/
def SLayer.seqL : SLayer → List Tensor → SLayer × List Tensor
  | .pointwise f, xs => (.pointwise f, xs.map f)
  | .node d s st, xs => nodeScan d s st xs

/-- The flattened (layer_by_layer) pass (lines 257-282): the entire network
runs once over the time-flattened tensor. -/
def flatRun : Net → List Tensor → Net × List Tensor
  | [], xs => ([], xs)
  | l :: ls, xs =>
      let r := l.seqL xs
      let r' := flatRun ls r.2
      (r.1 :: r'.1, r'.2)

/-- `self.reset()` (line 255): every node's state back to its initial
value; stateless modules and the learned structure are untouched. -/
def resetNet (net : Net) : Net := net.map SLayer.resetL

/-- Python's `sum(outputs)` over a nonempty list of tensors: the scalar
start value 0 broadcasts, so it folds elementwise addition from the first
element. -/
def sumT : List Tensor → Tensor
  | [] => []
  | x :: xs => xs.foldl addT x

/-- Division of a tensor by a scalar count, as in `sum(outputs) / len(outputs)`. -/
def divT (t : Tensor) (n : ℕ) : Tensor := t.map (fun a => a / (n : ℚ))

/-- `x.mean(0)` on a (t, b, c) tensor given as its t slices: elementwise
sum over the leading axis divided by its extent. -/
def meanDim0 (ts : List Tensor) : Tensor := divT (sumT ts) ts.length

/-- The value returned by `_forward_impl` / `forward`: a (t, b, c) tensor,
a (b, c) tensor, or a Python list of t tensors — distinct Python types. -/
inductive FwdOut where
  | tens3 (slices : List Tensor)
  | tens (t : Tensor)
  | pylist (ts : List Tensor)
  deriving DecidableEq

/-- `_forward_impl` (lines 252-306) after the encoder: reset, then either
the flattened pass (rearrange to (t, b, c), mean over t iff sum_output) or
the timestep loop (list of outputs; `sum(outputs)/len(outputs)` iff
sum_output). `enc` is the encoded input as its per-timestep slices. -/
def forwardImpl (layer_by_layer sum_output : Bool) (net : Net)
    (enc : List Tensor) : Net × FwdOut :=
  let net0 := resetNet net
  if layer_by_layer then
    let r := flatRun net0 enc
    (r.1, if sum_output then .tens (meanDim0 r.2) else .tens3 r.2)
  else
    let r := loopedRun net0 enc
    (r.1, if sum_output then .tens (divT (sumT r.2) r.2.length) else .pylist r.2)

/-! Interchange between the flattened and the looped pass. -/

lemma seqL_nil (l : SLayer) : l.seqL [] = (l, []) := by
  cases l <;> rfl

lemma seqL_cons (l : SLayer) (x : Tensor) (xs : List Tensor) :
    l.seqL (x :: xs) =
      (((l.stepL x).1.seqL xs).1, (l.stepL x).2 :: ((l.stepL x).1.seqL xs).2) := by
  cases l <;> rfl

lemma flatRun_nil : ∀ ls : Net, flatRun ls [] = (ls, []) := by
  intro ls
  induction ls with
  | nil => rfl
  | cons l ls ih => simp [flatRun, seqL_nil, ih]

lemma flatRun_cons : ∀ (ls : Net) (x : Tensor) (xs : List Tensor),
    flatRun ls (x :: xs) =
      ((flatRun (stepBody ls x).1 xs).1,
        (stepBody ls x).2 :: (flatRun (stepBody ls x).1 xs).2) := by
  intro ls
  induction ls with
  | nil => intro x xs; rfl
  | cons l ls ih =>
      intro x xs
      simp [flatRun, stepBody, seqL_cons, ih]

/-- The two non-once execution strategies compute the same per-timestep
outputs and leave the network in the same state. -/
theorem flatRun_eq_loopedRun : ∀ (xs : List Tensor) (ls : Net),
    flatRun ls xs = loopedRun ls xs := by
  intro xs
  induction xs with
  | nil => intro ls; rw [flatRun_nil]; rfl
  | cons x xs ih =>
      intro ls
      rw [flatRun_cons, ih]
      simp [loopedRun]

/-! Running the body changes only node states, never the reset projection. -/

lemma resetL_stepL (l : SLayer) (x : Tensor) :
    ((l.stepL x).1).resetL = l.resetL := by
  cases l <;> rfl

lemma resetNet_stepBody : ∀ (ls : Net) (x : Tensor),
    resetNet (stepBody ls x).1 = resetNet ls := by
  intro ls
  induction ls with
  | nil => intro x; rfl
  | cons l ls ih =>
      intro x
      simp [stepBody, resetNet, resetL_stepL]
      exact ih _

lemma resetNet_loopedRun : ∀ (xs : List Tensor) (ls : Net),
    resetNet (loopedRun ls xs).1 = resetNet ls := by
  intro xs
  induction xs with
  | nil => intro ls; rfl
  | cons x xs ih =>
      intro ls
      simp [loopedRun]
      rw [ih, resetNet_stepBody]

lemma resetL_resetL (l : SLayer) : l.resetL.resetL = l.resetL := by
  cases l <;> rfl

lemma resetNet_resetNet (ls : Net) : resetNet (resetNet ls) = resetNet ls := by
  simp [resetNet, List.map_map, Function.comp_def, resetL_resetL]

lemma resetNet_forwardImpl (lbl so : Bool) (net : Net) (enc : List Tensor) :
    resetNet (forwardImpl lbl so net enc).1 = resetNet net := by
  unfold forwardImpl
  by_cases h : lbl = true
  · simp only [h, if_true]
    rw [flatRun_eq_loopedRun, resetNet_loopedRun, resetNet_resetNet]
  · simp only [h, if_false, Bool.not_eq_true] at *
    simp only [h, Bool.false_eq_true, if_false]
    rw [resetNet_loopedRun, resetNet_resetNet]

lemma forwardImpl_congr (lbl so : Bool) (net1 net2 : Net) (enc : List Tensor) :
    resetNet net1 = resetNet net2 →
    forwardImpl lbl so net1 enc = forwardImpl lbl so net2 enc := by
  intro h
  unfold forwardImpl
  rw [h]

lemma loopedRun_length : ∀ (xs : List Tensor) (ls : Net),
    (loopedRun ls xs).2.length = xs.length := by
  intro xs
  induction xs with
  | nil => intro ls; rfl
  | cons x xs ih => intro ls; simp [loopedRun, ih]

/-! Temporal aggregation: the code's `sum(outputs)/len(outputs)` and
`x.mean(0)` versus the spec's elementwise arithmetic mean. -/

/-- Spec-side definition: the elementwise arithmetic mean over the
timestep axis of a stack of tensors of common shape `c`, read index by
index. -/
def specMean (c : ℕ) (ts : List Tensor) : Tensor :=
  (List.range c).map
    (fun i => ((ts.map (fun t => t.getD i 0)).sum) / (ts.length : ℚ))

lemma self_eq_rangeMap : ∀ x : Tensor,
    x = (List.range x.length).map (fun i => x.getD i 0) := by
  intro x
  induction x with
  | nil => rfl
  | cons a l ih =>
      simp only [List.length_cons, List.range_succ_eq_map, List.map_cons,
        List.map_map]
      refine congrArg₂ List.cons rfl ?_
      conv_lhs => rw [ih]
      simp [Function.comp, getD_cons_succ]

lemma addT_length (a b : Tensor) : (addT a b).length = min a.length b.length := by
  simp [addT]

lemma addT_getD : ∀ (a b : Tensor), a.length = b.length → ∀ i : ℕ,
    (addT a b).getD i 0 = a.getD i 0 + b.getD i 0 := by
  intro a
  induction a with
  | nil =>
      intro b h i
      cases b with
      | nil => simp [addT]
      | cons y ys => simp at h
  | cons x xs ih =>
      intro b h i
      cases b with
      | nil => simp at h
      | cons y ys =>
          simp only [List.length_cons, Nat.succ.injEq] at h
          cases i with
          | zero => rfl
          | succ j =>
              simp only [addT, List.zipWith_cons_cons, getD_cons_succ]
              exact ih ys h j

lemma foldl_addT_spec (c : ℕ) : ∀ (xs : List Tensor) (x : Tensor),
    x.length = c → (∀ t ∈ xs, t.length = c) →
    xs.foldl addT x =
      (List.range c).map
        (fun i => x.getD i 0 + ((xs.map (fun t => t.getD i 0)).sum)) := by
  intro xs
  induction xs with
  | nil =>
      intro x hx _
      simp only [List.foldl_nil, List.map_nil, List.sum_nil, add_zero]
      rw [← hx]
      exact self_eq_rangeMap x
  | cons y ys ih =>
      intro x hx hmem
      have hy : y.length = c := hmem y (List.mem_cons_self _ _)
      have hxy : (addT x y).length = c := by
        rw [addT_length, hx, hy, min_self]
      have hrest : ∀ t ∈ ys, t.length = c := fun t ht =>
        hmem t (List.mem_cons_of_mem _ ht)
      simp only [List.foldl_cons]
      rw [ih (addT x y) hxy hrest]
      refine List.map_congr_left ?_
      intro i _
      rw [addT_getD x y (by rw [hx, hy]) i]
      simp [add_assoc]

/-- The code's aggregate `sum(outputs) / len(outputs)` is exactly the
spec's elementwise mean, for a nonempty stack of common shape `c`. -/
lemma code_agg_eq_specMean (c : ℕ) (ts : List Tensor) (hne : ts ≠ [])
    (hlen : ∀ t ∈ ts, t.length = c) :
    divT (sumT ts) ts.length = specMean c ts := by
  cases ts with
  | nil => exact absurd rfl hne
  | cons x xs =>
      have hx : x.length = c := hlen x (List.mem_cons_self _ _)
      have hrest : ∀ t ∈ xs, t.length = c := fun t ht =>
        hlen t (List.mem_cons_of_mem _ ht)
      simp only [sumT, divT]
      rw [foldl_addT_spec c xs x hx hrest]
      simp only [specMean, List.map_map, List.map_cons, List.sum_cons]
      rfl

/-! ## Single-pass ("once") mode (`_forward_once`, lines 308-326, 479-497
and 648-666, dispatched by `forward` at lines 327-329, 498-500 and 667-669)

`_forward_once` is a chain of `self.<name>(x)` module applications plus one
`torch.flatten` call.  In Python, `self.<name>` on an `nn.Module` raises
`AttributeError` when no sub-module of that name was assigned in
`__init__`; the model therefore resolves each name against the list of
sub-module attributes the variant's `__init__` actually assigns. -/

/-- One operation of a `_forward_once` body: a sub-module attribute
application or the `torch.flatten(x, 1)` call. -/
inductive OnceOp where
  | attr (name : String)
  | flattenOp
  deriving DecidableEq

/-- The operation sequence shared verbatim by all three `_forward_once`
bodies (lines 308-326, 479-497, 648-666): conv1, bn1, node1, maxpool, the
four layer stackList, avgpool, flatten, fc. -/
def onceSeq : List OnceOp :=
  [.attr "conv1", .attr "bn1", .attr "node1", .attr "maxpool",
   .attr "layer1", .attr "layer2", .attr "layer3", .attr "layer4",
   .attr "avgpool", .flattenOp, .attr "fc"]

/-- The tensor-transforming sub-module attributes `SEWResNet.__init__`
assigns (lines 196-209). -/
def sewResNetAttrs : List String :=
  ["conv1", "bn1", "node1", "maxpool", "layer1", "layer2", "layer3",
   "layer4", "avgpool", "fc"]

/-- The tensor-transforming sub-module attributes `SEWResNet19.__init__`
assigns (lines 370-383): no maxpool, no layer4, fc1/fc2/node2 instead of fc. -/
def sewResNet19Attrs : List String :=
  ["conv1", "bn1", "node1", "layer1", "layer2", "layer3", "avgpool",
   "fc1", "fc2", "node2"]

/-- The tensor-transforming sub-module attributes
`SEWResNetCifar.__init__` assigns (lines 541-553): no layer4. -/
def sewResNetCifarAttrs : List String :=
  ["conv1", "bn1", "node1", "maxpool", "layer1", "layer2", "layer3",
   "avgpool", "fc"]

/-- Python attribute lookup on the module: defined names resolve to their
implementation, anything else is an `AttributeError`. -/
def attrEnv (attrs : List String) (impl : String → Tensor → Tensor)
    (name : String) : Option (Tensor → Tensor) :=
  if name ∈ attrs then some (impl name) else none

/-- Run a `_forward_once` body: apply each operation in order; a failed
attribute lookup raises and aborts the rest. -/
def runOnceOps (env : String → Option (Tensor → Tensor))
    (flat : Tensor → Tensor) : List OnceOp → Tensor → Except PyErr Tensor
  | [], x => .ok x
  | .attr n :: ops, x =>
      match env n with
      | none => .error .attributeError
      | some g => runOnceOps env flat ops (g x)
  | .flattenOp :: ops, x => runOnceOps env flat ops (flat x)

/-- `forward` (lines 327-329 and the two identical dispatchers): with
`once=True` it calls `_forward_once` directly on the raw input — the
encoder, `reset()`, the step loop and `sum_output` never enter. -/
def forwardDispatch (once : Bool) (attrs : List String)
    (impl : String → Tensor → Tensor) (flat : Tensor → Tensor)
    (layer_by_layer sum_output : Bool) (net : Net)
    (encode : Tensor → List Tensor) (x : Tensor) :
    Except PyErr FwdOut :=
  if once then
    (runOnceOps (attrEnv attrs impl) flat onceSeq x).map FwdOut.tens
  else
    .ok (forwardImpl layer_by_layer sum_output net (encode x)).2

/-! ## Construction (`__init__` and `_make_layer`, lines 157-250 and the
two near-identical variants; factories at lines 672-988) -/

/-- The block class used: `BasicBlock` (expansion 1) or `Bottleneck`
(expansion 4). -/
inductive BlockKind where
  | basic
  | bottleneck
  deriving DecidableEq

/-- `expansion` class attribute (lines 55 and 107). -/
def expansionOf : BlockKind → ℕ
  | .basic => 1
  | .bottleneck => 4

/-- The constructor arguments a block records; building one validates them
first. -/
structure BlockSpec where
  inplanes : ℕ
  planes : ℕ
  stride : ℕ
  hasDownsample : Bool
  groups : ℕ
  base_width : ℕ
  dilation : ℕ
  deriving DecidableEq

/-- `BasicBlock.__init__` validation (lines 62-65): groups must be 1 and
base_width 64 (ValueError), dilation at most 1 (NotImplementedError);
`Bottleneck.__init__` (lines 109-129) validates nothing. -/
def blockInit (bk : BlockKind) (inplanes planes stride : ℕ)
    (hasDownsample : Bool) (groups base_width dilation : ℕ) :
    Except PyErr BlockSpec :=
  match bk with
  | .basic =>
      if groups ≠ 1 ∨ base_width ≠ 64 then .error .valueError
      else if dilation > 1 then .error .notImplementedError
      else .ok ⟨inplanes, planes, stride, hasDownsample, groups, base_width, dilation⟩
  | .bottleneck =>
      .ok ⟨inplanes, planes, stride, hasDownsample, groups, base_width, dilation⟩

/-- The running construction state threaded through `_make_layer` calls:
`self.inplanes` and `self.dilation`. -/
structure MkState where
  inplanes : ℕ
  dilation : ℕ
  deriving DecidableEq

/-- The `for _ in range(1, blocks)` loop of `_make_layer` (lines 245-248):
append `k` further stride-1, downsample-free blocks at the updated
`self.inplanes` and `self.dilation`. -/
def buildRest (bk : BlockKind) (groups base_width inpl planes dil : ℕ) :
    ℕ → Except PyErr (List BlockSpec)
  | 0 => .ok []
  | k + 1 => do
      let b ← blockInit bk inpl planes 1 false groups base_width dil
      let r ← buildRest bk groups base_width inpl planes dil k
      .ok (b :: r)

/-- `_make_layer` (lines 228-250): optional dilate (stride converted to
accumulated dilation), downsample decision, first block with
previous_dilation, then `blocks - 1` stride-1 blocks at the updated
`self.inplanes` and `self.dilation`. -/
def makeLayer (bk : BlockKind) (groups base_width : ℕ) (st : MkState)
    (planes blocks stride0 : ℕ) (dilate : Bool) :
    Except PyErr (MkState × List BlockSpec) := do
  let previous_dilation := st.dilation
  let dil := if dilate then st.dilation * stride0 else st.dilation
  let stride := if dilate then 1 else stride0
  let hasDown : Bool := decide (stride ≠ 1 ∨ st.inplanes ≠ planes * expansionOf bk)
  let b0 ← blockInit bk st.inplanes planes stride hasDown groups base_width
    previous_dilation
  let inpl := planes * expansionOf bk
  let rest ← buildRest bk groups base_width inpl planes dil (blocks - 1)
  .ok (⟨inpl, dil⟩, b0 :: rest)

/-- The layer structure a successfully constructed network records. -/
structure NetSpec where
  rswd : List Bool
  stackList : List (List BlockSpec)
  fcIn : ℕ
  deriving DecidableEq

/-- Lines 184-190 (identically 358-364 and 529-535): default
`replace_stride_with_dilation` to `[False, False, False]` when `None`,
then require exactly three entries or raise `ValueError`. -/
def checkRSWD (r : Option (List Bool)) : Except PyErr (List Bool) :=
  let r' := r.getD [false, false, false]
  if r'.length ≠ 3 then .error .valueError else .ok r'

/-- `SEWResNet.__init__` (lines 157-227), the construction-order skeleton:
validate `replace_stride_with_dilation` first, then build the four layer
stackList (planes 64/128/256/512, strides 1/2/2/2, dilate flags from the
validated list) from `self.inplanes = 64`, `self.dilation = 1`; the
classifier reads `512 * block.expansion` features. -/
def sewResNetInit (bk : BlockKind) (layers : List ℕ)
    (groups width_per_group : ℕ) (rswd : Option (List Bool)) :
    Except PyErr NetSpec := do
  let d ← checkRSWD rswd
  let st0 : MkState := ⟨64, 1⟩
  let r1 ← makeLayer bk groups width_per_group st0 64 (layers.getD 0 0) 1 false
  let r2 ← makeLayer bk groups width_per_group r1.1 128 (layers.getD 1 0) 2
    (d.getD 0 false)
  let r3 ← makeLayer bk groups width_per_group r2.1 256 (layers.getD 2 0) 2
    (d.getD 1 false)
  let r4 ← makeLayer bk groups width_per_group r3.1 512 (layers.getD 3 0) 2
    (d.getD 2 false)
  .ok ⟨d, [r1.2, r2.2, r3.2, r4.2], 512 * expansionOf bk⟩

/-- `SEWResNet19.__init__` (lines 331-399): same validation, three stackList
at planes 128/256/512, strides 1/2/2. -/
def sewResNet19Init (bk : BlockKind) (layers : List ℕ)
    (groups width_per_group : ℕ) (rswd : Option (List Bool)) :
    Except PyErr NetSpec := do
  let d ← checkRSWD rswd
  let st0 : MkState := ⟨64, 1⟩
  let r1 ← makeLayer bk groups width_per_group st0 128 (layers.getD 0 0) 1 false
  let r2 ← makeLayer bk groups width_per_group r1.1 256 (layers.getD 1 0) 2
    (d.getD 0 false)
  let r3 ← makeLayer bk groups width_per_group r2.1 512 (layers.getD 2 0) 2
    (d.getD 1 false)
  .ok ⟨d, [r1.2, r2.2, r3.2], 512 * expansionOf bk⟩

/-- `SEWResNetCifar.__init__` (lines 502-570): same validation and stack
shape as the 19 variant (planes 128/256/512, strides 1/2/2). -/
def sewResNetCifarInit (bk : BlockKind) (layers : List ℕ)
    (groups width_per_group : ℕ) (rswd : Option (List Bool)) :
    Except PyErr NetSpec := do
  let d ← checkRSWD rswd
  let st0 : MkState := ⟨64, 1⟩
  let r1 ← makeLayer bk groups width_per_group st0 128 (layers.getD 0 0) 1 false
  let r2 ← makeLayer bk groups width_per_group r1.1 256 (layers.getD 1 0) 2
    (d.getD 0 false)
  let r3 ← makeLayer bk groups width_per_group r2.1 512 (layers.getD 2 0) 2
    (d.getD 1 false)
  .ok ⟨d, [r1.2, r2.2, r3.2], 512 * expansionOf bk⟩

/-! ## Factory functions (lines 672-988), with `pretrained=False` and a
minimal valid node/dataset configuration. -/

/-- `init_channel` selection (lines 178-181): 3 input channels unless the
dataset is event-stream (DVS) data, then 2. -/
def initChannel (isDvs : Bool) : ℕ := if isDvs then 2 else 3

/-- Python positional-argument binding: a call passing more positional
arguments than the callee declares raises `TypeError` before the body
runs. -/
def pyCallPositional (nparams nargs : ℕ)
    (body : Unit → Except PyErr NetSpec) : Except PyErr NetSpec :=
  if nparams < nargs then .error .typeError else body ()

/-- Whether a construction succeeded. -/
def isOkE : Except PyErr NetSpec → Bool
  | .ok _ => true
  | .error _ => false

/-- `sew_resnet18` (line 718) via `_sew_resnet` (lines 672-678):
BasicBlock, [2, 2, 2, 2], default groups=1, width_per_group=64. -/
def sewResnet18Model : Except PyErr NetSpec :=
  sewResNetInit .basic [2, 2, 2, 2] 1 64 none

/-- `sew_resnet34` (line 814). -/
def sewResnet34Model : Except PyErr NetSpec :=
  sewResNetInit .basic [3, 4, 6, 3] 1 64 none

/-- `sew_resnet50` (line 834). -/
def sewResnet50Model : Except PyErr NetSpec :=
  sewResNetInit .bottleneck [3, 4, 6, 3] 1 64 none

/-- `sew_resnet101` (line 854). -/
def sewResnet101Model : Except PyErr NetSpec :=
  sewResNetInit .bottleneck [3, 4, 23, 3] 1 64 none

/-- `sew_resnet152` (line 874). -/
def sewResnet152Model : Except PyErr NetSpec :=
  sewResNetInit .bottleneck [3, 8, 36, 3] 1 64 none

/-- `sew_resnext50_32x4d` (lines 894-896): groups=32, width_per_group=4,
Bottleneck. -/
def sewResnext50_32x4dModel : Except PyErr NetSpec :=
  sewResNetInit .bottleneck [3, 4, 6, 3] 32 4 none

/-- `sew_resnext34_32x4d` (lines 915-917): groups=32, width_per_group=4 —
but with `BasicBlock`, whose `__init__` rejects groups other than 1. -/
def sewResnext34_32x4dModel : Except PyErr NetSpec :=
  sewResNetInit .basic [3, 4, 6, 3] 32 4 none

/-- `sew_resnext101_32x8d` (line 938): the call
`_sew_resnet('resnext101_32x8d', Bottleneck, [3,4,23,3], pretrained,
progress, cnf, node, **kwargs)` passes 7 positional arguments to a
function declaring 6 (`arch, block, layers, pretrained, progress, cnf`). -/
def sewResnext101_32x8dModel : Except PyErr NetSpec :=
  pyCallPositional 6 7 (fun _ => sewResNetInit .bottleneck [3, 4, 23, 3] 32 8 none)

/-- `sew_wide_resnet50_2` (line 963): width_per_group=128. -/
def sewWideResnet50_2Model : Except PyErr NetSpec :=
  sewResNetInit .bottleneck [3, 4, 6, 3] 1 128 none

/-- `sew_wide_resnet101_2` (line 988): width_per_group=128. -/
def sewWideResnet101_2Model : Except PyErr NetSpec :=
  sewResNetInit .bottleneck [3, 4, 23, 3] 1 128 none

/-- `sew_resnet19` (line 698): SEWResNet19, BasicBlock, [3, 3, 2]. -/
def sewResnet19Model : Except PyErr NetSpec :=
  sewResNet19Init .basic [3, 3, 2] 1 64 none

/-- `sew_resnet20` (line 738): SEWResNetCifar, BasicBlock, [3, 3, 3]. -/
def sewResnet20Model : Except PyErr NetSpec :=
  sewResNetCifarInit .basic [3, 3, 3] 1 64 none

/-- `sew_resnet32` (line 757). -/
def sewResnet32Model : Except PyErr NetSpec :=
  sewResNetCifarInit .basic [5, 5, 5] 1 64 none

/-- `sew_resnet44` (line 776). -/
def sewResnet44Model : Except PyErr NetSpec :=
  sewResNetCifarInit .basic [7, 7, 7] 1 64 none

/-- `sew_resnet56` (line 795). -/
def sewResnet56Model : Except PyErr NetSpec :=
  sewResNetCifarInit .basic [9, 9, 9] 1 64 none

/-! ## Claim theorems -/

/-- C1: for every pair of equal-shaped numeric tensors a and b,
`sew_function(a, b, ADD)` is the elementwise sum a + b,
`sew_function(a, b, AND)` is the elementwise product a * b, and
`sew_function(a, b, IAND)` is a * (1 - b). -/
theorem C1_sew_function_modes (a b : Tensor) (h : a.length = b.length) :
    sew_function a b "ADD" = .ok (specElemwise (fun x y => x + y) a b) ∧
    sew_function a b "AND" = .ok (specElemwise (fun x y => x * y) a b) ∧
    sew_function a b "IAND" = .ok (specElemwise (fun x y => x * (1 - y)) a b) := by
  refine ⟨?_, ?_, ?_⟩ <;>
    simp [sew_function, addT, mulT, iandT, zipWith_eq_specElemwise _ a b h]

/-- Witness for C1 at a = [1, 2], b = [3, 5]. -/
theorem C1_sew_function_modes_witness :
    ([(1 : ℚ), 2].length = [(3 : ℚ), 5].length) ∧
    (sew_function [1, 2] [3, 5] "ADD" =
        .ok (specElemwise (fun x y => x + y) [1, 2] [3, 5]) ∧
      sew_function [1, 2] [3, 5] "AND" =
        .ok (specElemwise (fun x y => x * y) [1, 2] [3, 5]) ∧
      sew_function [1, 2] [3, 5] "IAND" =
        .ok (specElemwise (fun x y => x * (1 - y)) [1, 2] [3, 5])) :=
  ⟨rfl, C1_sew_function_modes [1, 2] [3, 5] rfl⟩

/-- C2: for every pair of tensors and every mode tag other than ADD, AND
and IAND, `sew_function` raises (an uncaught `NotImplementedError` that
propagates to the caller) and never returns a value. -/
theorem C2_unknown_mode_raises (x y : Tensor) (cnf : String)
    (h : cnf ≠ "ADD" ∧ cnf ≠ "AND" ∧ cnf ≠ "IAND") :
    sew_function x y cnf = .error .notImplementedError ∧
    ∀ t : Tensor, sew_function x y cnf ≠ .ok t := by
  obtain ⟨h1, h2, h3⟩ := h
  refine ⟨by simp [sew_function, h1, h2, h3], ?_⟩
  intro t
  simp [sew_function, h1, h2, h3]

/-- Witness for C2 at the mode tag "bogus". -/
theorem C2_unknown_mode_raises_witness :
    ("bogus" ≠ "ADD" ∧ "bogus" ≠ "AND" ∧ "bogus" ≠ "IAND") ∧
    (sew_function [1] [2] "bogus" = .error .notImplementedError ∧
      ∀ t : Tensor, sew_function [1] [2] "bogus" ≠ .ok t) :=
  ⟨by decide, C2_unknown_mode_raises [1] [2] "bogus" (by decide)⟩

/-- C3: a BasicBlock forward merges as `sew_function(identity, main, cnf)`
while a Bottleneck forward merges as `sew_function(main, identity, cnf)`;
hence under IAND a BasicBlock returns identity * (1 - residual) and a
Bottleneck returns residual * (1 - identity). -/
theorem C3_merge_argument_order (B : BasicBlockM) (C : BottleneckM)
    (x y : Tensor)
    (hB : (B.identityPath x).length = (B.mainPath x).length)
    (hC : (C.mainPath y).length = (C.identityPath y).length) :
    B.forward x = sew_function (B.identityPath x) (B.mainPath x) B.cnf ∧
    C.forward y = sew_function (C.mainPath y) (C.identityPath y) C.cnf ∧
    (B.cnf = "IAND" → B.forward x =
      .ok (specElemwise (fun i r => i * (1 - r))
        (B.identityPath x) (B.mainPath x))) ∧
    (C.cnf = "IAND" → C.forward y =
      .ok (specElemwise (fun r i => r * (1 - i))
        (C.mainPath y) (C.identityPath y))) := by
  refine ⟨rfl, rfl, ?_, ?_⟩
  · intro hcnf
    show sew_function (B.identityPath x) (B.mainPath x) B.cnf = _
    rw [hcnf]
    simp [sew_function, iandT, zipWith_eq_specElemwise _ _ _ hB]
  · intro hcnf
    show sew_function (C.mainPath y) (C.identityPath y) C.cnf = _
    rw [hcnf]
    simp [sew_function, iandT, zipWith_eq_specElemwise _ _ _ hC]

/-- A concrete BasicBlock with identity sub-modules and cnf = IAND. -/
def basicBlockW : BasicBlockM :=
  ⟨id, id, id, id, id, id, none, id, "IAND"⟩

/-- A concrete Bottleneck with identity sub-modules and cnf = IAND. -/
def bottleneckW : BottleneckM :=
  ⟨id, id, id, id, id, id, id, id, id, none, id, "IAND"⟩

/-- Witness for C3 at the concrete blocks on input [1/2]. -/
theorem C3_merge_argument_order_witness :
    ((basicBlockW.identityPath [(1 : ℚ)/2]).length =
      (basicBlockW.mainPath [(1 : ℚ)/2]).length) ∧
    ((bottleneckW.mainPath [(1 : ℚ)/2]).length =
      (bottleneckW.identityPath [(1 : ℚ)/2]).length) ∧
    (basicBlockW.forward [(1 : ℚ)/2] =
        sew_function (basicBlockW.identityPath [(1 : ℚ)/2])
          (basicBlockW.mainPath [(1 : ℚ)/2]) basicBlockW.cnf ∧
      bottleneckW.forward [(1 : ℚ)/2] =
        sew_function (bottleneckW.mainPath [(1 : ℚ)/2])
          (bottleneckW.identityPath [(1 : ℚ)/2]) bottleneckW.cnf ∧
      (basicBlockW.cnf = "IAND" → basicBlockW.forward [(1 : ℚ)/2] =
        .ok (specElemwise (fun i r => i * (1 - r))
          (basicBlockW.identityPath [(1 : ℚ)/2])
          (basicBlockW.mainPath [(1 : ℚ)/2]))) ∧
      (bottleneckW.cnf = "IAND" → bottleneckW.forward [(1 : ℚ)/2] =
        .ok (specElemwise (fun r i => r * (1 - i))
          (bottleneckW.mainPath [(1 : ℚ)/2])
          (bottleneckW.identityPath [(1 : ℚ)/2])))) :=
  ⟨rfl, rfl, C3_merge_argument_order basicBlockW bottleneckW
    [(1 : ℚ)/2] [(1 : ℚ)/2] rfl rfl⟩

/-- C4: with once=True, forward runs `_forward_once` on the raw input,
bypassing encoder, reset, step count and sum_output — but the claim fails
on the code: the `_forward_once` bodies of SEWResNet19 and SEWResNetCifar
access `self.maxpool` / `self.layer4` / `self.fc`, which those classes
never assign, so their once-mode forward raises AttributeError for every
input; only SEWResNet's once mode returns a value (and that value is
independent of the execution and aggregation flags). -/
theorem C4_once_mode_attribute_bug (impl : String → Tensor → Tensor)
    (flat : Tensor → Tensor) (net : Net) (encode : Tensor → List Tensor)
    (lbl so : Bool) (x : Tensor) :
    forwardDispatch true sewResNet19Attrs impl flat lbl so net encode x =
      .error .attributeError ∧
    forwardDispatch true sewResNetCifarAttrs impl flat lbl so net encode x =
      .error .attributeError ∧
    (∃ y, forwardDispatch true sewResNetAttrs impl flat lbl so net encode x =
      .ok (.tens y)) ∧
    (∀ (lbl' so' : Bool) (net' : Net) (encode' : Tensor → List Tensor),
      forwardDispatch true sewResNetAttrs impl flat lbl' so' net' encode' x =
      forwardDispatch true sewResNetAttrs impl flat lbl so net encode x) :=
  ⟨rfl, rfl, ⟨_, rfl⟩, fun _ _ _ _ => rfl⟩

/-- C5: with once=False and sum_output=True, both the looped and the
flattened execution paths return the elementwise arithmetic mean of the
per-timestep classifier outputs. -/
theorem C5_sum_output_is_mean (net : Net) (enc : List Tensor) (c : ℕ)
    (hne : enc ≠ [])
    (hlenL : ∀ t ∈ (loopedRun (resetNet net) enc).2, t.length = c)
    (hlenF : ∀ t ∈ (flatRun (resetNet net) enc).2, t.length = c) :
    (forwardImpl false true net enc).2 =
      .tens (specMean c (loopedRun (resetNet net) enc).2) ∧
    (forwardImpl true true net enc).2 =
      .tens (specMean c (flatRun (resetNet net) enc).2) := by
  have hLne : (loopedRun (resetNet net) enc).2 ≠ [] := by
    intro h0
    have h1 : enc.length = 0 := by
      rw [← loopedRun_length enc (resetNet net), h0]
      rfl
    exact hne (List.length_eq_zero.mp h1)
  have hFne : (flatRun (resetNet net) enc).2 ≠ [] := by
    rw [flatRun_eq_loopedRun]
    exact hLne
  constructor
  · show FwdOut.tens _ = _
    rw [code_agg_eq_specMean c _ hLne hlenL]
  · show FwdOut.tens (meanDim0 _) = _
    unfold meanDim0
    rw [code_agg_eq_specMean c _ hFne hlenF]

/-- A spiking accumulator node: state adds the input and is emitted. -/
def accNodeW : SLayer :=
  .node (fun st x => (addT st x, addT st x)) [0] [0]

/-- Witness for C5: the one-node network on two timestep slices [1], [3]
(per-step outputs [1] and [4], mean [5/2]). -/
theorem C5_sum_output_is_mean_witness :
    (([[(1 : ℚ)], [3]] : List Tensor) ≠ []) ∧
    (∀ t ∈ (loopedRun (resetNet [accNodeW]) [[(1 : ℚ)], [3]]).2, t.length = 1) ∧
    (∀ t ∈ (flatRun (resetNet [accNodeW]) [[(1 : ℚ)], [3]]).2, t.length = 1) ∧
    ((forwardImpl false true [accNodeW] [[(1 : ℚ)], [3]]).2 =
      .tens (specMean 1 (loopedRun (resetNet [accNodeW]) [[(1 : ℚ)], [3]]).2) ∧
    (forwardImpl true true [accNodeW] [[(1 : ℚ)], [3]]).2 =
      .tens (specMean 1 (flatRun (resetNet [accNodeW]) [[(1 : ℚ)], [3]]).2)) :=
  ⟨by decide, by decide, by decide,
    C5_sum_output_is_mean [accNodeW] [[(1 : ℚ)], [3]] 1
      (by decide) (by decide) (by decide)⟩

/-- C6: every non-once forward call resets all spiking-node state before
running the body, so two consecutive forward invocations on the same
input produce identical outputs — no node state leaks between calls. -/
theorem C6_reset_no_state_leak (lbl so : Bool) (net : Net)
    (enc : List Tensor) :
    (forwardImpl lbl so (forwardImpl lbl so net enc).1 enc).2 =
      (forwardImpl lbl so net enc).2 := by
  rw [forwardImpl_congr lbl so _ net enc (resetNet_forwardImpl lbl so net enc)]

/-- C7: on an input whose per-timestep slices are all equal, from the same
initial state, the flattened (layer_by_layer) pass computes the same
per-timestep outputs as the looped pass, and the two aggregated forward
results coincide. -/
theorem C7_flat_loop_equivalence (net : Net) (step : ℕ) (x : Tensor) :
    (flatRun (resetNet net) (List.replicate step x)).2 =
      (loopedRun (resetNet net) (List.replicate step x)).2 ∧
    forwardImpl true true net (List.replicate step x) =
      forwardImpl false true net (List.replicate step x) := by
  constructor
  · rw [flatRun_eq_loopedRun]
  · show (fun r => (r.1, FwdOut.tens (meanDim0 r.2)))
        (flatRun (resetNet net) (List.replicate step x)) = _
    rw [flatRun_eq_loopedRun]
    rfl

/-! Construction success lemmas for the default configuration. -/

lemma blockInit_basic_ok (inplanes planes stride : ℕ) (hasDown : Bool)
    (d : ℕ) (hd : d ≤ 1) :
    blockInit .basic inplanes planes stride hasDown 1 64 d =
      .ok ⟨inplanes, planes, stride, hasDown, 1, 64, d⟩ := by
  unfold blockInit
  rw [if_neg (by simp), if_neg (by omega)]

lemma blockInit_ok (bk : BlockKind) (inplanes planes stride : ℕ)
    (hasDown : Bool) (d : ℕ) (hd : d ≤ 1) :
    blockInit bk inplanes planes stride hasDown 1 64 d =
      .ok ⟨inplanes, planes, stride, hasDown, 1, 64, d⟩ := by
  cases bk with
  | basic => exact blockInit_basic_ok inplanes planes stride hasDown d hd
  | bottleneck => rfl

lemma bindE_ok {α β ε : Type} (a : α) (f : α → Except ε β) :
    (Except.ok a : Except ε α) >>= f = f a := rfl

lemma bindE_err {α β ε : Type} (e : ε) (f : α → Except ε β) :
    (Except.error e : Except ε α) >>= f = Except.error e := rfl

lemma buildRest_ok (bk : BlockKind) (inpl planes dil : ℕ) (hd : dil ≤ 1) :
    ∀ k, buildRest bk 1 64 inpl planes dil k =
      .ok (List.replicate k ⟨inpl, planes, 1, false, 1, 64, dil⟩) := by
  intro k
  induction k with
  | zero => rfl
  | succ n ih =>
      simp [buildRest, blockInit_ok bk inpl planes 1 false dil hd, ih,
        List.replicate_succ, bindE_ok]

lemma makeLayer_ok (bk : BlockKind) (st : MkState)
    (planes blocks stride0 : ℕ) (hdil : st.dilation ≤ 1) :
    makeLayer bk 1 64 st planes blocks stride0 false =
      .ok (⟨planes * expansionOf bk, st.dilation⟩,
        ⟨st.inplanes, planes, stride0,
          decide (stride0 ≠ 1 ∨ st.inplanes ≠ planes * expansionOf bk),
          1, 64, st.dilation⟩ ::
        List.replicate (blocks - 1)
          ⟨planes * expansionOf bk, planes, 1, false, 1, 64, st.dilation⟩) := by
  unfold makeLayer
  simp only [if_neg Bool.false_ne_true, Bool.false_eq_true, if_false]
  rw [blockInit_ok bk st.inplanes planes stride0 _ st.dilation hdil]
  rw [buildRest_ok bk _ planes st.dilation hdil (blocks - 1)]
  rfl

lemma exists_ok_rswd {x : Except PyErr NetSpec}
    (h : x.map NetSpec.rswd = .ok [false, false, false]) :
    ∃ m, x = .ok m ∧ m.rswd = [false, false, false] := by
  cases x with
  | error e => simp [Except.map] at h
  | ok m => exact ⟨m, rfl, by simpa [Except.map] using h⟩

lemma sewResNetInit_rswd (bk : BlockKind) (layers : List ℕ) :
    (sewResNetInit bk layers 1 64 none).map NetSpec.rswd =
      .ok [false, false, false] := by
  simp only [sewResNetInit]
  simp [checkRSWD, bindE_ok, makeLayer_ok, Except.map]

lemma sewResNet19Init_rswd (bk : BlockKind) (layers : List ℕ) :
    (sewResNet19Init bk layers 1 64 none).map NetSpec.rswd =
      .ok [false, false, false] := by
  simp only [sewResNet19Init]
  simp [checkRSWD, bindE_ok, makeLayer_ok, Except.map]

lemma sewResNetCifarInit_rswd (bk : BlockKind) (layers : List ℕ) :
    (sewResNetCifarInit bk layers 1 64 none).map NetSpec.rswd =
      .ok [false, false, false] := by
  simp only [sewResNetCifarInit]
  simp [checkRSWD, bindE_ok, makeLayer_ok, Except.map]

/-- C8: a `replace_stride_with_dilation` argument without exactly three
entries makes every variant constructor raise ValueError before any layer
stack is built; `None` defaults it to [False, False, False] and
construction proceeds (here with the default groups=1,
width_per_group=64). -/
theorem C8_rswd_validation :
    (∀ (bk : BlockKind) (layers : List ℕ) (groups wpg : ℕ) (l : List Bool),
      l.length ≠ 3 →
        sewResNetInit bk layers groups wpg (some l) = .error .valueError ∧
        sewResNet19Init bk layers groups wpg (some l) = .error .valueError ∧
        sewResNetCifarInit bk layers groups wpg (some l) = .error .valueError) ∧
    (∀ (bk : BlockKind) (layers : List ℕ),
      (∃ m, sewResNetInit bk layers 1 64 none = .ok m ∧
        m.rswd = [false, false, false]) ∧
      (∃ m, sewResNet19Init bk layers 1 64 none = .ok m ∧
        m.rswd = [false, false, false]) ∧
      (∃ m, sewResNetCifarInit bk layers 1 64 none = .ok m ∧
        m.rswd = [false, false, false])) := by
  constructor
  · intro bk layers groups wpg l hl
    have hce : checkRSWD (some l) = .error .valueError := by
      simp [checkRSWD, hl]
    refine ⟨?_, ?_, ?_⟩ <;>
      simp [sewResNetInit, sewResNet19Init, sewResNetCifarInit, hce, bindE_err]
  · intro bk layers
    exact ⟨exists_ok_rswd (sewResNetInit_rswd bk layers),
      exists_ok_rswd (sewResNet19Init_rswd bk layers),
      exists_ok_rswd (sewResNetCifarInit_rswd bk layers)⟩

/-- Witness for C8 at the one-entry list [True] and the resnet18 layer
counts. -/
theorem C8_rswd_validation_witness :
    (([true] : List Bool).length ≠ 3) ∧
    (sewResNetInit .basic [2, 2, 2, 2] 1 64 (some [true]) =
        .error .valueError ∧
      sewResNet19Init .basic [2, 2, 2, 2] 1 64 (some [true]) =
        .error .valueError ∧
      sewResNetCifarInit .basic [2, 2, 2, 2] 1 64 (some [true]) =
        .error .valueError) :=
  ⟨by decide, C8_rswd_validation.1 .basic [2, 2, 2, 2] 1 64 [true] (by decide)⟩

/-- C9: each published factory with pretrained=False and a minimal valid
configuration should construct a model (with 3 input channels for standard
datasets and 2 for event-stream datasets) — the claim fails on the code:
`sew_resnext34_32x4d` pairs groups=32, width_per_group=4 with BasicBlock,
whose constructor rejects them with ValueError, and `sew_resnext101_32x8d`
passes 7 positional arguments to the 6-parameter `_sew_resnet`, a
TypeError; every other factory constructs successfully. -/
theorem C9_factory_construction :
    isOkE sewResnet18Model = true ∧
    isOkE sewResnet34Model = true ∧
    isOkE sewResnet50Model = true ∧
    isOkE sewResnet101Model = true ∧
    isOkE sewResnet152Model = true ∧
    isOkE sewResnext50_32x4dModel = true ∧
    isOkE sewWideResnet50_2Model = true ∧
    isOkE sewWideResnet101_2Model = true ∧
    isOkE sewResnet19Model = true ∧
    isOkE sewResnet20Model = true ∧
    isOkE sewResnet32Model = true ∧
    isOkE sewResnet44Model = true ∧
    isOkE sewResnet56Model = true ∧
    sewResnext34_32x4dModel = .error .valueError ∧
    sewResnext101_32x8dModel = .error .typeError ∧
    initChannel false = 3 ∧
    initChannel true = 2 :=
  ⟨rfl, rfl, rfl, rfl, rfl, rfl, rfl, rfl, rfl, rfl, rfl, rfl, rfl,
    rfl, rfl, rfl, rfl⟩

/-- C10: with once=False and sum_output=False, the flattened path returns
a single stacked tensor whose leading dimension is the step count, while
the looped path returns a Python list of `step` per-timestep tensors —
two distinct result types. -/
theorem C10_unaggregated_output_types (net : Net) (enc : List Tensor)
    (step : ℕ) (h : enc.length = step) :
    (∃ slices, (forwardImpl true false net enc).2 = .tens3 slices ∧
      slices.length = step) ∧
    (∃ outs, (forwardImpl false false net enc).2 = .pylist outs ∧
      outs.length = step) ∧
    (∀ a b, FwdOut.tens3 a ≠ FwdOut.pylist b) := by
  refine ⟨⟨(flatRun (resetNet net) enc).2, rfl, ?_⟩,
    ⟨(loopedRun (resetNet net) enc).2, rfl, ?_⟩, ?_⟩
  · rw [flatRun_eq_loopedRun, loopedRun_length, h]
  · rw [loopedRun_length, h]
  · intro a b hab
    cases hab

/-- Witness for C10: the accumulator-node network on the two-timestep
input [[1], [2]]. -/
theorem C10_unaggregated_output_types_witness :
    (([[(1 : ℚ)], [2]] : List Tensor).length = 2) ∧
    ((∃ slices,
        (forwardImpl true false [accNodeW] [[(1 : ℚ)], [2]]).2 =
          .tens3 slices ∧ slices.length = 2) ∧
      (∃ outs,
        (forwardImpl false false [accNodeW] [[(1 : ℚ)], [2]]).2 =
          .pylist outs ∧ outs.length = 2) ∧
      (∀ a b, FwdOut.tens3 a ≠ FwdOut.pylist b)) :=
  ⟨rfl, C10_unaggregated_output_types [accNodeW] [[(1 : ℚ)], [2]] 2 rfl⟩

end SewResnet
